import Mathlib

/-!
Verification of the `ConvertFullyConnectedToFullyConnectedCompressed` rewrite
pass (src/plugins/intel_gpu/src/plugin/transformations/convert_fc_to_compressed.cpp).

The pass recognizes a dequantization chain
  Constant(u8/i8) -> Convert -> [Subtract(zero_point)] -> Multiply(scale)
  -> [Reshape 3D->2D] -> [Transpose] -> FullyConnected(data, weights_branch)
and replaces the FullyConnected node by one FullyConnectedCompressed node
carrying the canonicalized (rank-2, possibly transposed) weight, scale and
optional zero-point constants.

The embedding has two parts:
* the matcher side: `NTree` is a tree of graph nodes annotated with the
  facts the pattern predicates read (element type, shape, consumer count,
  static ranks of a reshape); the `match*` functions are the wrap_type /
  Or pattern spec of lines 29-61 of the source;
* the callback side: `PatternValueMap` is the binding map the engine hands
  to the callback; `callback` is the rewrite body of lines 63-138, with
  `OPENVINO_ASSERT` / `map.at` failures as `Except.error` and the
  "return false" paths (failed dynamic cast, transformation_callback veto)
  as `Except.ok none`; a successful rewrite is `Except.ok (some newFC)`.
-/

namespace ConvertFCToCompressed

/-- Element types relevant to the pass (`ov::element`). -/
inductive ElemType where
  | u8
  | i8
  | i32
  | f16
  | f32
  | dynamic
  deriving DecidableEq, Repr

/-- A constant holding a transpose permutation: its tensor shape and its
data. `ov::shape_size` of the constant is `shape.prod`. -/
structure TransConst where
  shape : List Nat
  data : List Int
  deriving DecidableEq, Repr

/-- The matched `op::FullyConnected` node, reduced to the facts the callback
reads: the identity of its first (data) input, `get_output_type()`, and
`get_friendly_name()`. -/
structure FullyConnected where
  input_a : Nat
  output_type : ElemType
  friendly_name : String
  deriving DecidableEq, Repr

/-- An operand of the fused node: either a canonicalized rank-2 constant, or
a Transpose node (clone of the matched transpose) applied to such a constant
with a permutation constant. -/
inductive Operand where
  | const (shape : List Nat)
  | transposed (shape : List Nat) (order : TransConst)
  deriving DecidableEq, Repr

/-- The `op::FullyConnectedCompressed` node built by the callback. `zp` is
present exactly when the subtract branch was matched (4-operand vs 3-operand
constructor). `rt_sources` records the matched nodes whose runtime info is
merged onto the new node by `ov::copy_runtime_info`. -/
structure FullyConnectedCompressed where
  input_a : Nat
  input_b : Operand
  scale : Operand
  zp : Option Operand
  output_type : ElemType
  friendly_name : String
  rt_sources : List Nat
  deriving DecidableEq, Repr

/-- The pattern value map handed to the callback. `fully_connected` is
`some root` when the root binding exists, and `root` is `some fc` when the
`dynamic_pointer_cast<op::FullyConnected>` succeeds. Constants are reduced
to their shapes, which is all the callback reads of them. The `convert`,
`subtract` and `transpose` fields record whether those bindings exist. -/
structure PatternValueMap where
  fully_connected : Option (Option FullyConnected)
  mul_const : Option (List Nat)
  weights : Option (List Nat)
  convert : Bool
  subtract : Bool
  sub_const : Option (List Nat)
  transpose : Bool
  transpose_const : Option TransConst
  deriving DecidableEq, Repr

/-- Failures of a rewrite attempt: `OPENVINO_ASSERT` of lines 65-68 and 84,
and `pattern_map.at` on an absent key. -/
inductive PassError where
  | assertFullyConnectedBinding
  | assertMulConstBinding
  | assertWeightsBinding
  | assertConvertBinding
  | assertConstRank
  | atSubConst
  | atTransposeConst
  deriving DecidableEq, Repr

/-- Line 76: `grouped = count_if(scale_shape, d > 1) > 1`. -/
def groupedFlag (scale_shape : List Nat) : Bool :=
  decide (1 < scale_shape.countP (fun d => decide (1 < d)))

/-- Lines 78-90, `reshape_const_to_2d`: a rank-2 constant is returned as is;
a rank-3 constant `[d0, d1, d2]` becomes `[d0*d1, d2]` when `has_transpose`
or not `grouped`, else `[d0, d1*d2]`; any other rank fails the
`OPENVINO_ASSERT(current_shape.size() == 3)`. -/
def reshape_const_to_2d (has_transpose grouped : Bool) : List Nat → Except PassError (List Nat)
  | [d0, d1] => Except.ok [d0, d1]
  | [d0, d1, d2] =>
      Except.ok (if has_transpose || !grouped then [d0 * d1, d2] else [d0, d1 * d2])
  | _ => Except.error PassError.assertConstRank

/-- Lines 96-99: when the subtract branch was matched, the zero point is the
canonicalized `sub_const` (`pattern_map.at` fails when the binding is
absent); otherwise there is no zero point. -/
def computeZeroPoint (has_transpose grouped withZeroPoint : Bool)
    (sub_const : Option (List Nat)) : Except PassError (Option (List Nat)) :=
  match withZeroPoint with
  | false => Except.ok none
  | true =>
    match sub_const with
    | none => Except.error PassError.atSubConst
    | some s =>
      match reshape_const_to_2d has_transpose grouped s with
      | Except.error e => Except.error e
      | Except.ok z => Except.ok (some z)

/-- Lines 108-110: `new_order` filled by `iota` from 0, then the last two
entries swapped (the source indexes `size-1` and `size-2`; the canonicalized
rank is always at least 2, see `reshape_const_to_2d_length`). -/
def iotaSwapLast (r : Nat) : List Int :=
  (List.range r).map (fun i =>
    if i = r - 1 then Int.ofNat (r - 2)
    else if i = r - 2 then Int.ofNat (r - 1)
    else Int.ofNat i)

/-- Lines 107-112: the permutation constant actually applied: the captured
one when its element count (`ov::shape_size` of its shape) equals the
canonicalized weight rank `r`, else a fresh i32 constant of shape `[r]`
holding `iotaSwapLast r`. -/
def effectiveOrder (tc : TransConst) (r : Nat) : TransConst :=
  if tc.shape.prod ≠ r then TransConst.mk [r] (iotaSwapLast r) else tc

/-- Lines 101-118: the three fused-node operands. Without a transpose they
are the canonicalized constants; with a transpose, each is the matched
transpose node cloned onto the constant with the same `effectiveOrder`
permutation (`pattern_map.at(transpose_const_m)` fails when absent). -/
def buildOperands (has_transpose : Bool) (transpose_const : Option TransConst)
    (fc_input_b scale : List Nat) (zero_point : Option (List Nat)) :
    Except PassError (Operand × Operand × Option Operand) :=
  match has_transpose with
  | false =>
    Except.ok (Operand.const fc_input_b, Operand.const scale,
      zero_point.map Operand.const)
  | true =>
    match transpose_const with
    | none => Except.error PassError.atTransposeConst
    | some tc =>
      Except.ok (Operand.transposed fc_input_b (effectiveOrder tc fc_input_b.length),
        Operand.transposed scale (effectiveOrder tc fc_input_b.length),
        zero_point.map (fun z => Operand.transposed z (effectiveOrder tc fc_input_b.length)))

/-- Lines 63-138: the matcher-pass callback. Asserts the four required
bindings, casts the root, consults the veto (`transformation_callback`),
derives `has_transpose` and `grouped`, canonicalizes scale / zero-point /
weights, builds the (possibly transposed) operands, and constructs the
`FullyConnectedCompressed` node inheriting the data input, output type and
friendly name of the original, with runtime info copied from all matched
nodes. -/
def callback (veto : FullyConnected → Bool) (matched_nodes : List Nat)
    (pm : PatternValueMap) : Except PassError (Option FullyConnectedCompressed) :=
  match pm.fully_connected with
  | none => Except.error PassError.assertFullyConnectedBinding
  | some root =>
    match pm.mul_const with
    | none => Except.error PassError.assertMulConstBinding
    | some scale_shape =>
      match pm.weights with
      | none => Except.error PassError.assertWeightsBinding
      | some weights_shape =>
        match pm.convert with
        | false => Except.error PassError.assertConvertBinding
        | true =>
          match root with
          | none => Except.ok none
          | some fc =>
            match veto fc with
            | true => Except.ok none
            | false =>
              match reshape_const_to_2d pm.transpose (groupedFlag scale_shape) scale_shape with
              | Except.error e => Except.error e
              | Except.ok scale =>
                match computeZeroPoint pm.transpose (groupedFlag scale_shape) pm.subtract pm.sub_const with
                | Except.error e => Except.error e
                | Except.ok optional_zero_point =>
                  match reshape_const_to_2d pm.transpose (groupedFlag scale_shape) weights_shape with
                  | Except.error e => Except.error e
                  | Except.ok fc_input_b =>
                    match buildOperands pm.transpose pm.transpose_const fc_input_b scale optional_zero_point with
                    | Except.error e => Except.error e
                    | Except.ok (ib, iscale, izp) =>
                      Except.ok (some
                        (FullyConnectedCompressed.mk fc.input_a ib iscale izp
                          fc.output_type fc.friendly_name matched_nodes))

/-- True exactly on the `Except.error` outcome of a rewrite attempt. -/
def isError {α : Type} : Except PassError α → Bool
  | Except.error _ => true
  | Except.ok _ => false

/-- A tree of graph nodes carrying the facts the pattern predicates read:
a constant's element type, shape and consumer count
(`get_target_inputs().size()`); a reshape node's statically known input and
output ranks (`none` when the rank is dynamic). `fusedNoZp` / `fusedZp` are
the 3- and 4-operand `FullyConnectedCompressed` nodes the rewrite creates;
`other` is any unrelated node. -/
inductive NTree where
  | constant (et : ElemType) (shape : List Nat) (consumers : Nat)
  | convert (input : NTree)
  | subtract (a b : NTree)
  | multiply (a b : NTree)
  | reshape (input shapeConst : NTree) (inRank outRank : Option Nat)
  | transpose (input order : NTree)
  | fullyConnected (data weights : NTree)
  | fusedNoZp (dataId : Nat) (weights scale : NTree)
  | fusedZp (dataId : Nat) (weights scale zp : NTree)
  | other (id : Nat)
  deriving DecidableEq, Repr

/-- Lines 29-33, 41: `weights_m` matches a Constant whose element type is u8
or i8 and which has exactly one consumer (`compressed_constant`). -/
def matchWeightsConst : NTree → Bool
  | NTree.constant et _ c => (et == ElemType.u8 || et == ElemType.i8) && c == 1
  | _ => false

/-- Line 42: `convert_m` matches a Convert whose input matches `weights_m`. -/
def matchConvert : NTree → Bool
  | NTree.convert i => matchWeightsConst i
  | _ => false

/-- `wrap_type<Constant>(consumers_count(n))`. -/
def matchConstWithConsumers (n : Nat) : NTree → Bool
  | NTree.constant _ _ c => c == n
  | _ => false

/-- Line 44: `sub_const_m` matches a single-consumer Constant. -/
def matchSubConst : NTree → Bool := matchConstWithConsumers 1

/-- Line 47: `mul_const_m` matches a single-consumer Constant. -/
def matchMulConst : NTree → Bool := matchConstWithConsumers 1

/-- Line 45: `subtract_m` matches Subtract(convert_m, sub_const_m). -/
def matchSubtract : NTree → Bool
  | NTree.subtract a b => matchConvert a && matchSubConst b
  | _ => false

/-- Lines 48-50: `mul_m` is Multiply(subtract_m, mul_const_m) or
Multiply(convert_m, mul_const_m). -/
def matchMul : NTree → Bool
  | NTree.multiply a b => (matchSubtract a || matchConvert a) && matchMulConst b
  | _ => false

/-- Lines 35-39, 52-53: `reshape_m` matches Reshape(mul_m, Constant) whose
input rank is statically 3 and whose output rank is statically 2
(`reshape_3d_to_2d`). -/
def matchReshape : NTree → Bool
  | NTree.reshape i c inR outR =>
      matchMul i && (match c with | NTree.constant _ _ _ => true | _ => false)
        && inR == some 3 && outR == some 2
  | _ => false

/-- Lines 55-57: `transpose_m` matches Transpose(reshape_m or mul_m,
Constant). -/
def matchTranspose : NTree → Bool
  | NTree.transpose i o =>
      (matchReshape i || matchMul i)
        && (match o with | NTree.constant _ _ _ => true | _ => false)
  | _ => false

/-- Line 60: `weights_input_m` is reshape_m, transpose_m or mul_m. -/
def matchWeightsInput (t : NTree) : Bool :=
  matchReshape t || matchTranspose t || matchMul t

/-- Line 61: `fully_connected_m` matches FullyConnected(any_input,
weights_input_m). -/
def matchFullyConnectedPattern : NTree → Bool
  | NTree.fullyConnected _ w => matchWeightsInput w
  | _ => false

/-- Whether a Multiply node occurs anywhere in the tree. -/
def containsMultiply : NTree → Bool
  | NTree.constant _ _ _ => false
  | NTree.convert i => containsMultiply i
  | NTree.subtract a b => containsMultiply a || containsMultiply b
  | NTree.multiply _ _ => true
  | NTree.reshape i c _ _ => containsMultiply i || containsMultiply c
  | NTree.transpose i o => containsMultiply i || containsMultiply o
  | NTree.fullyConnected d w => containsMultiply d || containsMultiply w
  | NTree.fusedNoZp _ w s => containsMultiply w || containsMultiply s
  | NTree.fusedZp _ w s z => containsMultiply w || containsMultiply s || containsMultiply z
  | NTree.other _ => false

/-- A fused-node operand as it appears in the rewritten graph: a constant
node (with the element type and consumer count it has there), or a Transpose
node over such a constant and an i32 permutation constant. -/
def operandToTree (et : ElemType) (c : Nat) : Operand → NTree
  | Operand.const shape => NTree.constant et shape c
  | Operand.transposed shape tc =>
      NTree.transpose (NTree.constant et shape c) (NTree.constant ElemType.i32 tc.shape 1)

/-- The `FullyConnectedCompressed` node built by the callback, viewed as a
node of the rewritten graph. -/
def newFCTree (wet set zet : ElemType) (cw cs cz : Nat)
    (nfc : FullyConnectedCompressed) : NTree :=
  match nfc.zp with
  | none => NTree.fusedNoZp nfc.input_a
      (operandToTree wet cw nfc.input_b) (operandToTree set cs nfc.scale)
  | some z => NTree.fusedZp nfc.input_a
      (operandToTree wet cw nfc.input_b) (operandToTree set cs nfc.scale)
      (operandToTree zet cz z)

/-- A canonicalized constant always has rank 2. -/
theorem reshape_const_to_2d_length (ht g : Bool) (s t : List Nat)
    (h : reshape_const_to_2d ht g s = Except.ok t) : t.length = 2 := by
  rcases s with _ | ⟨a, _ | ⟨b, _ | ⟨c, _ | ⟨d, u⟩⟩⟩⟩
  · simp [reshape_const_to_2d] at h
  · simp [reshape_const_to_2d] at h
  · simp [reshape_const_to_2d] at h
    rw [← h]
    rfl
  · simp [reshape_const_to_2d] at h
    rw [← h]
    split <;> rfl
  · simp [reshape_const_to_2d] at h

/-- Canonicalization of a rank outside {2, 3} fails the rank assertion. -/
theorem reshape_const_to_2d_bad_rank (ht g : Bool) (s : List Nat)
    (h2 : s.length ≠ 2) (h3 : s.length ≠ 3) :
    reshape_const_to_2d ht g s = Except.error PassError.assertConstRank := by
  rcases s with _ | ⟨a, _ | ⟨b, _ | ⟨c, _ | ⟨d, u⟩⟩⟩⟩
  · rfl
  · rfl
  · exact absurd rfl h2
  · exact absurd rfl h3
  · rfl

/-- The computed zero point is present exactly when the subtract branch was
matched. -/
theorem computeZeroPoint_isSome (ht g w : Bool) (sc : Option (List Nat))
    (o : Option (List Nat)) (h : computeZeroPoint ht g w sc = Except.ok o) :
    o.isSome = w := by
  cases w
  · simp [computeZeroPoint] at h
    rw [← h]
    rfl
  · rcases sc with _ | s
    · simp [computeZeroPoint] at h
    · rcases hr : reshape_const_to_2d ht g s with e | z
      · simp [computeZeroPoint, hr] at h
      · simp [computeZeroPoint, hr] at h
        rw [← h]
        rfl

/-- `buildOperands` keeps the zero-point operand present exactly when a zero
point was supplied. -/
theorem buildOperands_zp_isSome (ht : Bool) (tc : Option TransConst)
    (b s : List Nat) (z : Option (List Nat)) (ops : Operand × Operand × Option Operand)
    (h : buildOperands ht tc b s z = Except.ok ops) : (ops.2.2).isSome = z.isSome := by
  cases ht
  · simp [buildOperands] at h
    rw [← h]
    cases z <;> rfl
  · rcases tc with _ | tc0
    · simp [buildOperands] at h
    · simp [buildOperands] at h
      rw [← h]
      cases z <;> rfl

/-- A tree matched by `mul_m` contains a Multiply node. -/
theorem matchMul_contains (t : NTree) (h : matchMul t = true) :
    containsMultiply t = true := by
  cases t <;> first | rfl | simp [matchMul] at h

/-- A tree matched by `reshape_m` contains a Multiply node. -/
theorem matchReshape_contains (t : NTree) (h : matchReshape t = true) :
    containsMultiply t = true := by
  cases t <;> simp [matchReshape] at h
  case reshape i c inR outR =>
    simp [containsMultiply, matchMul_contains i h.1.1.1]

/-- A tree matched by `transpose_m` contains a Multiply node. -/
theorem matchTranspose_contains (t : NTree) (h : matchTranspose t = true) :
    containsMultiply t = true := by
  cases t <;> simp [matchTranspose] at h
  case transpose i o =>
    rcases h.1 with hi | hi
    · simp [containsMultiply, matchReshape_contains i hi]
    · simp [containsMultiply, matchMul_contains i hi]

/-- Any tree matched by `weights_input_m` contains a Multiply node: the
pattern requires the multiply-rooted dequantization chain. -/
theorem matchWeightsInput_contains (t : NTree) (h : matchWeightsInput t = true) :
    containsMultiply t = true := by
  unfold matchWeightsInput at h
  rcases Bool.or_eq_true_iff.mp h with h1 | h2
  · rcases Bool.or_eq_true_iff.mp h1 with h3 | h4
    · exact matchReshape_contains t h3
    · exact matchTranspose_contains t h4
  · exact matchMul_contains t h2

/-- No operand of the fused node contains a Multiply node. -/
theorem operandToTree_no_multiply (et : ElemType) (c : Nat) (op : Operand) :
    containsMultiply (operandToTree et c op) = false := by
  cases op <;> rfl

/-- C1: a constant canonicalized by `reshape_const_to_2d` is returned
unchanged when its rank is 2; a rank-3 constant `[d0, d1, d2]` becomes
`[d0*d1, d2]` when `has_transpose` is true or `grouped` is false, and
`[d0, d1*d2]` when `grouped` is true and `has_transpose` is false. -/
theorem c1_canonicalization_shapes (ht g : Bool) (d0 d1 d2 : Nat) :
    reshape_const_to_2d ht g [d0, d1] = Except.ok [d0, d1]
    ∧ reshape_const_to_2d true g [d0, d1, d2] = Except.ok [d0 * d1, d2]
    ∧ reshape_const_to_2d ht false [d0, d1, d2] = Except.ok [d0 * d1, d2]
    ∧ reshape_const_to_2d false true [d0, d1, d2] = Except.ok [d0, d1 * d2] := by
  refine ⟨rfl, ?_, ?_, rfl⟩
  · cases g <;> rfl
  · cases ht <;> rfl

/-- C2: the derived `grouped` flag is true exactly when the number of
dimensions of the scale shape whose size is strictly greater than 1 exceeds
1. -/
theorem c2_grouped_iff_multiple_nontrivial_dims (s : List Nat) :
    groupedFlag s = true ↔ 1 < (s.filter (fun d => decide (1 < d))).length := by
  simp [groupedFlag, List.countP_eq_length_filter]

/-- C5: when the veto predicate (`transformation_callback`) disallows the
matched fully-connected root, the callback returns without mutating the
graph (`Except.ok none`, the "return false" path). -/
theorem c5_veto_no_mutation (veto : FullyConnected → Bool) (mn : List Nat)
    (pm : PatternValueMap) (fc : FullyConnected)
    (h1 : pm.fully_connected = some (some fc))
    (h2 : pm.mul_const.isSome = true) (h3 : pm.weights.isSome = true)
    (h4 : pm.convert = true) (hv : veto fc = true) :
    callback veto mn pm = Except.ok none := by
  obtain ⟨ss, hss⟩ := Option.isSome_iff_exists.mp h2
  obtain ⟨ws, hws⟩ := Option.isSome_iff_exists.mp h3
  simp [callback, h1, hss, hws, h4, hv]

/-- C5 witness: a concrete vetoed match is left unrewritten. -/
theorem c5_witness :
    callback (fun _ => true) []
      (PatternValueMap.mk (some (some (FullyConnected.mk 0 ElemType.f32 ("fc"))))
        (some [16, 16]) (some [16, 16]) true false none false none)
      = Except.ok none :=
  c5_veto_no_mutation (fun _ => true) [] _ _ rfl rfl rfl rfl rfl

/-- C6: `weights_m` matches a constant exactly when its element type is u8
or i8 and it has exactly one consumer; `mul_const_m` and `sub_const_m` match
a constant exactly when it has exactly one consumer; a constant with two or
more consumers is never matched by any of them. -/
theorem c6_single_consumer_and_8bit (et : ElemType) (sh : List Nat) (c : Nat) :
    (matchWeightsConst (NTree.constant et sh c) = true
      ↔ ((et = ElemType.u8 ∨ et = ElemType.i8) ∧ c = 1))
    ∧ (matchMulConst (NTree.constant et sh c) = true ↔ c = 1)
    ∧ (matchSubConst (NTree.constant et sh c) = true ↔ c = 1)
    ∧ matchWeightsConst (NTree.constant et sh (c + 2)) = false
    ∧ matchMulConst (NTree.constant et sh (c + 2)) = false
    ∧ matchSubConst (NTree.constant et sh (c + 2)) = false := by
  cases et <;>
    simp [matchWeightsConst, matchMulConst, matchSubConst, matchConstWithConsumers]

/-- C10: when the root binding exists but the dynamic cast to
`op::FullyConnected` fails, the callback returns false (no mutation) rather
than raising: the candidate is skipped silently. -/
theorem c10_failed_cast_silent_skip (veto : FullyConnected → Bool) (mn : List Nat)
    (pm : PatternValueMap)
    (h1 : pm.fully_connected = some none)
    (h2 : pm.mul_const.isSome = true) (h3 : pm.weights.isSome = true)
    (h4 : pm.convert = true) :
    callback veto mn pm = Except.ok none := by
  obtain ⟨ss, hss⟩ := Option.isSome_iff_exists.mp h2
  obtain ⟨ws, hws⟩ := Option.isSome_iff_exists.mp h3
  simp [callback, h1, hss, hws, h4]

/-- C10 witness: a concrete match whose root fails the cast is skipped. -/
theorem c10_witness :
    callback (fun _ => false) []
      (PatternValueMap.mk (some none) (some [16, 16]) (some [16, 16]) true false none false none)
      = Except.ok none :=
  c10_failed_cast_silent_skip (fun _ => false) [] _ rfl rfl rfl rfl

/-- C7: a missing binding for the fully-connected root, the scale constant,
the weight constant or the convert node makes the callback raise
(`Except.error`, the `OPENVINO_ASSERT` of lines 65-68), and a
canonicalization input whose rank is neither 2 nor 3 raises the rank
assertion of line 84 — in both cases the attempt is not silently skipped. -/
theorem c7_contract_violations_raise (veto : FullyConnected → Bool) (mn : List Nat)
    (pm : PatternValueMap) (fc : FullyConnected) (ss : List Nat) :
    (pm.fully_connected = none → isError (callback veto mn pm) = true)
    ∧ (pm.mul_const = none → isError (callback veto mn pm) = true)
    ∧ (pm.weights = none → isError (callback veto mn pm) = true)
    ∧ (pm.convert = false → isError (callback veto mn pm) = true)
    ∧ (pm.fully_connected = some (some fc) → veto fc = false →
        pm.mul_const = some ss → ss.length ≠ 2 → ss.length ≠ 3 →
        pm.weights.isSome = true → pm.convert = true →
        isError (callback veto mn pm) = true)
    ∧ (∀ (ht g : Bool) (s : List Nat), s.length ≠ 2 → s.length ≠ 3 →
        reshape_const_to_2d ht g s = Except.error PassError.assertConstRank) := by
  refine ⟨?_, ?_, ?_, ?_, ?_, fun ht g s u2 u3 => reshape_const_to_2d_bad_rank ht g s u2 u3⟩
  · intro h
    simp [callback, h, isError]
  · intro h
    rcases hfc : pm.fully_connected with _ | root
    · simp [callback, hfc, isError]
    · simp [callback, hfc, h, isError]
  · intro h
    rcases hfc : pm.fully_connected with _ | root
    · simp [callback, hfc, isError]
    · rcases hmc : pm.mul_const with _ | ss0
      · simp [callback, hfc, hmc, isError]
      · simp [callback, hfc, hmc, h, isError]
  · intro h
    rcases hfc : pm.fully_connected with _ | root
    · simp [callback, hfc, isError]
    · rcases hmc : pm.mul_const with _ | ss0
      · simp [callback, hfc, hmc, isError]
      · rcases hws : pm.weights with _ | ws0
        · simp [callback, hfc, hmc, hws, isError]
        · simp [callback, hfc, hmc, hws, h, isError]
  · intro h1 hv h2 u2 u3 hw h4
    obtain ⟨ws, hws⟩ := Option.isSome_iff_exists.mp hw
    simp [callback, h1, h2, hws, h4, hv,
      reshape_const_to_2d_bad_rank pm.transpose (groupedFlag ss) ss u2 u3, isError]

/-- C7 witness: a concrete attempt with a rank-4 scale constant raises, and
one with a missing root binding raises. -/
theorem c7_witness :
    isError (callback (fun _ => false) [0]
      (PatternValueMap.mk (some (some (FullyConnected.mk 0 ElemType.f32 ("fc"))))
        (some [2, 4, 8, 2]) (some [16, 16]) true false none false none)) = true
    ∧ isError (callback (fun _ => false) [0]
      (PatternValueMap.mk none (some [16, 16]) (some [16, 16]) true false none false none)) = true := by
  constructor
  · exact (c7_contract_violations_raise (fun _ => false) [0] _
      (FullyConnected.mk 0 ElemType.f32 ("fc")) [2, 4, 8, 2]).2.2.2.2.1
      rfl rfl rfl (by decide) (by decide) rfl rfl
  · exact (c7_contract_violations_raise (fun _ => false) [0] _
      (FullyConnected.mk 0 ElemType.f32 ("fc")) []).1 rfl

/-- C3: for a successful rewrite, the callback builds exactly one fused node
whose first operand is the unchanged data input of the original
fully-connected node, whose friendly name and output element type are those
of the original, whose runtime info is copied from all matched nodes, and
which carries a zero-point operand exactly when the subtract branch was
matched. -/
theorem c3_fused_node_construction (veto : FullyConnected → Bool) (mn : List Nat)
    (pm : PatternValueMap) (fc : FullyConnected) (ss ws s2 w2 : List Nat)
    (ozp : Option (List Nat)) (ops : Operand × Operand × Option Operand)
    (h1 : pm.fully_connected = some (some fc))
    (h2 : pm.mul_const = some ss)
    (h3 : pm.weights = some ws)
    (h4 : pm.convert = true)
    (h5 : veto fc = false)
    (hsc : reshape_const_to_2d pm.transpose (groupedFlag ss) ss = Except.ok s2)
    (hzp : computeZeroPoint pm.transpose (groupedFlag ss) pm.subtract pm.sub_const = Except.ok ozp)
    (hw : reshape_const_to_2d pm.transpose (groupedFlag ss) ws = Except.ok w2)
    (hbo : buildOperands pm.transpose pm.transpose_const w2 s2 ozp = Except.ok ops) :
    callback veto mn pm = Except.ok (some (FullyConnectedCompressed.mk
      fc.input_a ops.1 ops.2.1 ops.2.2 fc.output_type fc.friendly_name mn))
    ∧ (ops.2.2).isSome = pm.subtract := by
  obtain ⟨ib, isc, izp⟩ := ops
  constructor
  · simp [callback, h1, h2, h3, h4, h5, hsc, hzp, hw, hbo]
  · have h6 := computeZeroPoint_isSome pm.transpose (groupedFlag ss) pm.subtract pm.sub_const ozp hzp
    have h7 := buildOperands_zp_isSome pm.transpose pm.transpose_const w2 s2 ozp (ib, isc, izp) hbo
    rw [← h6, ← h7]

/-- C3 witness: a concrete successful rewrite with a zero point. -/
theorem c3_witness :
    callback (fun _ => false) [1, 2]
      (PatternValueMap.mk (some (some (FullyConnected.mk 3 ElemType.f16 ("name"))))
        (some [2, 4, 8]) (some [2, 4, 8]) true true (some [2, 4, 1]) false none)
      = Except.ok (some (FullyConnectedCompressed.mk 3
          (Operand.const [2, 32]) (Operand.const [2, 32]) (some (Operand.const [2, 4]))
          ElemType.f16 ("name") [1, 2]))
    ∧ (some (Operand.const [2, 4])).isSome = true := by
  exact c3_fused_node_construction (fun _ => false) [1, 2] _
    (FullyConnected.mk 3 ElemType.f16 ("name")) [2, 4, 8] [2, 4, 8] [2, 32] [2, 32]
    (some [2, 4]) (Operand.const [2, 32], Operand.const [2, 32], some (Operand.const [2, 4]))
    rfl rfl rfl rfl rfl rfl rfl rfl rfl

/-- C4: when a transpose is matched, the fused node's weight, scale and (if
present) zero-point operands are all transposed with the same permutation
constant `effectiveOrder tc r`: the captured constant `tc` when its element
count equals the canonicalized weight rank `r`, and otherwise the
replacement `[0, 1, ..., r-3, r-1, r-2]` of the correct rank (here `r = 2`,
since canonicalized constants have rank 2). -/
theorem c4_transpose_propagation (veto : FullyConnected → Bool) (mn : List Nat)
    (pm : PatternValueMap) (fc : FullyConnected) (ss ws s2 w2 : List Nat)
    (ozp : Option (List Nat)) (tc : TransConst)
    (h1 : pm.fully_connected = some (some fc))
    (h2 : pm.mul_const = some ss)
    (h3 : pm.weights = some ws)
    (h4 : pm.convert = true)
    (h5 : veto fc = false)
    (htp : pm.transpose = true)
    (htc : pm.transpose_const = some tc)
    (hsc : reshape_const_to_2d pm.transpose (groupedFlag ss) ss = Except.ok s2)
    (hzp : computeZeroPoint pm.transpose (groupedFlag ss) pm.subtract pm.sub_const = Except.ok ozp)
    (hw : reshape_const_to_2d pm.transpose (groupedFlag ss) ws = Except.ok w2) :
    callback veto mn pm = Except.ok (some (FullyConnectedCompressed.mk fc.input_a
      (Operand.transposed w2 (effectiveOrder tc w2.length))
      (Operand.transposed s2 (effectiveOrder tc w2.length))
      (ozp.map (fun z => Operand.transposed z (effectiveOrder tc w2.length)))
      fc.output_type fc.friendly_name mn))
    ∧ (tc.shape.prod = w2.length → effectiveOrder tc w2.length = tc)
    ∧ (tc.shape.prod ≠ w2.length →
        effectiveOrder tc w2.length = TransConst.mk [w2.length] (iotaSwapLast w2.length))
    ∧ w2.length = 2
    ∧ iotaSwapLast w2.length = (List.range (w2.length - 2)).map Int.ofNat
        ++ [Int.ofNat (w2.length - 1), Int.ofNat (w2.length - 2)] := by
  have hlen : w2.length = 2 := reshape_const_to_2d_length pm.transpose (groupedFlag ss) ws w2 hw
  refine ⟨?_, ?_, ?_, hlen, ?_⟩
  · rw [htp] at hsc hzp hw
    simp [callback, h1, h2, h3, h4, h5, hsc, hzp, hw, htp, htc, buildOperands]
  · intro h
    simp [effectiveOrder, h]
  · intro h
    simp [effectiveOrder, h]
  · rw [hlen]
    rfl

/-- C4 witness: a concrete rewrite with a matched transpose whose captured
rank-3 permutation is stale and is replaced by the rank-2 swap. -/
theorem c4_witness :
    callback (fun _ => false) [4]
      (PatternValueMap.mk (some (some (FullyConnected.mk 9 ElemType.f32 ("n"))))
        (some [2, 4, 8]) (some [2, 4, 8]) true true (some [2, 4, 8]) true
        (some (TransConst.mk [3] [0, 2, 1])))
      = Except.ok (some (FullyConnectedCompressed.mk 9
          (Operand.transposed [8, 8] (effectiveOrder (TransConst.mk [3] [0, 2, 1]) 2))
          (Operand.transposed [8, 8] (effectiveOrder (TransConst.mk [3] [0, 2, 1]) 2))
          ((some [8, 8]).map (fun z => Operand.transposed z (effectiveOrder (TransConst.mk [3] [0, 2, 1]) 2)))
          ElemType.f32 ("n") [4]))
    ∧ ((TransConst.mk [3] [0, 2, 1]).shape.prod = 2 →
        effectiveOrder (TransConst.mk [3] [0, 2, 1]) 2 = TransConst.mk [3] [0, 2, 1])
    ∧ ((TransConst.mk [3] [0, 2, 1]).shape.prod ≠ 2 →
        effectiveOrder (TransConst.mk [3] [0, 2, 1]) 2 = TransConst.mk [2] (iotaSwapLast 2))
    ∧ ([8, 8] : List Nat).length = 2
    ∧ iotaSwapLast 2 = (List.range 0).map Int.ofNat ++ [Int.ofNat 1, Int.ofNat 0] := by
  exact c4_transpose_propagation (fun _ => false) [4] _
    (FullyConnected.mk 9 ElemType.f32 ("n")) [2, 4, 8] [2, 4, 8] [8, 8] [8, 8]
    (some [8, 8]) (TransConst.mk [3] [0, 2, 1])
    rfl rfl rfl rfl rfl rfl rfl rfl rfl rfl

/-- C8: the pass is idempotent at the rewritten location: the fused node
does not match the pattern root again, its weights branch contains no
Multiply node, the weights branch fails `weights_input_m`, and any tree
`weights_input_m` accepts must contain the multiply-rooted dequantization
chain. -/
theorem c8_idempotent_no_rematch (veto : FullyConnected → Bool) (mn : List Nat)
    (pm : PatternValueMap) (nfc : FullyConnectedCompressed)
    (_hok : callback veto mn pm = Except.ok (some nfc))
    (etw ets etz : ElemType) (cw cs cz : Nat) :
    matchFullyConnectedPattern (newFCTree etw ets etz cw cs cz nfc) = false
    ∧ containsMultiply (operandToTree etw cw nfc.input_b) = false
    ∧ matchWeightsInput (operandToTree etw cw nfc.input_b) = false
    ∧ (∀ t : NTree, matchWeightsInput t = true → containsMultiply t = true) := by
  refine ⟨?_, operandToTree_no_multiply etw cw nfc.input_b, ?_, matchWeightsInput_contains⟩
  · rcases hz : nfc.zp with _ | z <;> simp [newFCTree, hz, matchFullyConnectedPattern]
  · rcases hb : matchWeightsInput (operandToTree etw cw nfc.input_b) with _ | _
    · rfl
    · have := matchWeightsInput_contains (operandToTree etw cw nfc.input_b) hb
      rw [operandToTree_no_multiply etw cw nfc.input_b] at this
      exact absurd this (by simp)

/-- C8 witness: the fused node of a concrete successful rewrite is not
matched again. -/
theorem c8_witness :
    matchFullyConnectedPattern (newFCTree ElemType.u8 ElemType.f16 ElemType.u8 1 1 1
      (FullyConnectedCompressed.mk 7 (Operand.const [2, 32]) (Operand.const [2, 32]) none
        ElemType.f32 ("fc") [0])) = false
    ∧ containsMultiply (operandToTree ElemType.u8 1
        (FullyConnectedCompressed.mk 7 (Operand.const [2, 32]) (Operand.const [2, 32]) none
          ElemType.f32 ("fc") [0]).input_b) = false
    ∧ matchWeightsInput (operandToTree ElemType.u8 1
        (FullyConnectedCompressed.mk 7 (Operand.const [2, 32]) (Operand.const [2, 32]) none
          ElemType.f32 ("fc") [0]).input_b) = false
    ∧ (∀ t : NTree, matchWeightsInput t = true → containsMultiply t = true) := by
  exact c8_idempotent_no_rematch (fun _ => false) [0]
    (PatternValueMap.mk (some (some (FullyConnected.mk 7 ElemType.f32 ("fc"))))
      (some [2, 4, 8]) (some [2, 4, 8]) true false none false none)
    (FullyConnectedCompressed.mk 7 (Operand.const [2, 32]) (Operand.const [2, 32]) none
      ElemType.f32 ("fc") [0])
    rfl ElemType.u8 ElemType.f16 ElemType.u8 1 1 1

/-- C9: concrete scenario: with weight and scale constants of shape
`[2, 4, 8]` the grouped flag is true; without a transpose the rewrite
canonicalizes weight and scale to `[2, 32]`, and with a transpose to
`[8, 8]`. -/
theorem c9_concrete_2_4_8 :
    groupedFlag [2, 4, 8] = true
    ∧ callback (fun _ => false) [0]
        (PatternValueMap.mk (some (some (FullyConnected.mk 7 ElemType.f32 ("fc"))))
          (some [2, 4, 8]) (some [2, 4, 8]) true false none false none)
        = Except.ok (some (FullyConnectedCompressed.mk 7
            (Operand.const [2, 32]) (Operand.const [2, 32]) none ElemType.f32 ("fc") [0]))
    ∧ callback (fun _ => false) [0]
        (PatternValueMap.mk (some (some (FullyConnected.mk 7 ElemType.f32 ("fc"))))
          (some [2, 4, 8]) (some [2, 4, 8]) true false none true
          (some (TransConst.mk [2] [1, 0])))
        = Except.ok (some (FullyConnectedCompressed.mk 7
            (Operand.transposed [8, 8] (TransConst.mk [2] [1, 0]))
            (Operand.transposed [8, 8] (TransConst.mk [2] [1, 0]))
            none ElemType.f32 ("fc") [0])) :=
  ⟨rfl, rfl, rfl⟩

end ConvertFCToCompressed
